import Mathlib

/-
Verification of the query-result notification coordinator
(src/react/cache/QuerySubscription.ts) against its specification.

The coordinator wraps an already-executing query observable: it tracks the
latest delivered result snapshot, deduplicates and normalizes updates before
fanning them out to a set of registered listeners, exposes a public promise
(with a first-chunk fast path for deferred queries), and manages teardown.

The embedding below is a shallow model of that TypeScript class.  Mutable
instance state becomes an explicit state record; listener callbacks are
identified by opaque numbers (JS function identity); a listener invocation is
recorded as a (listener, result) pair; promises returned by the engine are
opaque identities; the settlement of the constructed public promise is
computed from the sequence of events of the underlying delivery stream.
-/

namespace ApolloClient

/-- Network status codes of the query engine (core/networkStatus.ts). -/
inductive NetworkStatus where
  | loading
  | setVariables
  | fetchMore
  | refetch
  | poll
  | ready
  | error
deriving DecidableEq, Repr

/-- Modelled from the spec: network-status classification
(isNetworkRequestSettled from core/networkStatus.ts, a collaborator not
included in the sources).  A settled status indicates the request is no
longer in flight: success or error, not loading. -/
def isNetworkRequestSettled : NetworkStatus → Bool
  | NetworkStatus.ready => true
  | NetworkStatus.error => true
  | _ => false

/-- An engine error (ApolloError), treated as an opaque value compared
structurally. -/
structure ApolloError where
  message : String
deriving DecidableEq, Repr

/-- A query result snapshot (ApolloQueryResult): possibly-absent data
(absence models the JS value undefined), an optional error, the network
status and the loading flag.  The coordinator treats snapshots as values
compared by deep structural equality. -/
structure ApolloQueryResult (D : Type) where
  data : Option D
  error : Option ApolloError
  networkStatus : NetworkStatus
  loading : Bool
deriving DecidableEq, Repr

/-- State of one QuerySubscription coordinator: the current result snapshot,
the public promise (an opaque promise identity), the registered listener set
(listener identities, each present at most once), whether the engine
subscription is still active, and how many times the onDispose hook has been
invoked. -/
structure QuerySubscription (D : Type) where
  result : ApolloQueryResult D
  promise : Nat
  listeners : List Nat
  subscribed : Bool
  disposeHookCalls : Nat
deriving DecidableEq, Repr

/-- JS Set.add on the listener set: identity-based, a listener is stored at
most once. -/
def addListener (ls : List Nat) (l : Nat) : List Nat :=
  if l ∈ ls then ls else ls ++ [l]

/-- JS Set.delete on the listener set: removes the listener if present, a
no-op otherwise. -/
def deleteListener (ls : List Nat) (l : Nat) : List Nat :=
  ls.filter (fun x => x ≠ l)

/-- listen(listener): adds the listener to the set (and returns an
unregistration closure, modelled by unlisten below). -/
def listen {D : Type} (s : QuerySubscription D) (l : Nat) : QuerySubscription D :=
  { s with listeners := addListener s.listeners l }

/-- The unregistration closure returned by listen: deletes exactly the
registered listener from the set. -/
def unlisten {D : Type} (s : QuerySubscription D) (l : Nat) : QuerySubscription D :=
  { s with listeners := deleteListener s.listeners l }

/-- deliver(result): invokes every registered listener with the result; the
invocations are recorded as (listener, result) pairs in set order. -/
def deliver {D : Type} (s : QuerySubscription D) (result : ApolloQueryResult D) :
    List (Nat × ApolloQueryResult D) :=
  s.listeners.map (fun l => (l, result))

/-- The stale-result backfill at the top of handleNext: if the incoming
result's network status is settled, the held result has (truthy) data and the
incoming result's data is undefined, the incoming result's data is set to the
held data; otherwise the incoming result is left alone. -/
def backfillData {D : Type} [DecidableEq D] (s : QuerySubscription D)
    (result : ApolloQueryResult D) : ApolloQueryResult D :=
  if isNetworkRequestSettled result.networkStatus ∧ s.result.data.isSome ∧
      result.data = none then
    { result with data := s.result.data }
  else result

/-- handleNext(result): apply the stale-result backfill, then deduplicate by
deep structural equality against the current result; when the (possibly
backfilled) result differs, store it and fan out to every listener.  Returns
the new state together with the listener invocations. -/
def handleNext {D : Type} [DecidableEq D] (s : QuerySubscription D)
    (result : ApolloQueryResult D) :
    QuerySubscription D × List (Nat × ApolloQueryResult D) :=
  let result := backfillData s result
  if s.result = result then (s, [])
  else ({ s with result := result }, deliver s result)

/-- handleError(error): synthesize a shallow copy of the current result with
the error filled in and the network status forced to error, store it and fan
out unconditionally (no deduplication). -/
def handleError {D : Type} (s : QuerySubscription D) (error : ApolloError) :
    QuerySubscription D × List (Nat × ApolloQueryResult D) :=
  let result : ApolloQueryResult D :=
    { s.result with error := some error, networkStatus := NetworkStatus.error }
  ({ s with result := result }, deliver s result)

/-- refetch(variables): delegate to the engine's refetch, store the promise
it returns in the promise field and return that promise. -/
def refetch {D : Type} (refetchOp : Option Nat → Nat) (s : QuerySubscription D)
    (vars : Option Nat) : QuerySubscription D × Nat :=
  ({ s with promise := refetchOp vars }, refetchOp vars)

/-- fetchMore(options): delegate to the engine's fetchMore, store the promise
it returns in the promise field and return that promise. -/
def fetchMore {D : Type} (fetchMoreOp : Nat → Nat) (s : QuerySubscription D)
    (options : Nat) : QuerySubscription D × Nat :=
  ({ s with promise := fetchMoreOp options }, fetchMoreOp options)

/-- dispose(): release the engine subscription and invoke the onDispose hook;
the hook invocation is counted, the engine-level unsubscribe is idempotent. -/
def dispose {D : Type} (s : QuerySubscription D) : QuerySubscription D :=
  { s with subscribed := false, disposeHookCalls := s.disposeHookCalls + 1 }

/-- A raw event arriving from the engine on the coordinator's subscription. -/
inductive EngineEvent (D : Type) where
  | next (result : ApolloQueryResult D)
  | err (error : ApolloError)

/-- Modelled from the spec: the engine invokes the handlers registered by
subscribe only while that subscription is active; once dispose severs the
subscription, no raw event reaches handleNext or handleError. -/
def engineDeliver {D : Type} [DecidableEq D] (s : QuerySubscription D)
    (ev : EngineEvent D) : QuerySubscription D × List (Nat × ApolloQueryResult D) :=
  if s.subscribed then
    match ev with
    | EngineEvent.next r => handleNext s r
    | EngineEvent.err e => handleError s e
  else (s, [])

/-- Processes a sequence of raw engine events in order, accumulating the
listener invocations. -/
def engineDeliverTrace {D : Type} [DecidableEq D] (s : QuerySubscription D) :
    List (EngineEvent D) → QuerySubscription D × List (Nat × ApolloQueryResult D)
  | [] => (s, [])
  | ev :: evs =>
      let out := engineDeliver s ev
      let rest := engineDeliverTrace out.1 evs
      (rest.1, out.2 ++ rest.2)

/-- An event of the multicast delivery stream (Concast): a chunk, a stream
error, or completion. -/
inductive StreamEvent (D : Type) where
  | next (value : D)
  | fail (error : ApolloError)
  | complete
deriving DecidableEq, Repr

/-- The settlement state of a promise. -/
inductive PromiseState (D : Type) where
  | pending
  | resolved (value : D)
  | rejected (error : ApolloError)
deriving DecidableEq, Repr

/-- wrapWithCustomPromise: subscribes a one-shot observer to the delivery
stream; the first chunk resolves the promise with its value, after which the
observer unsubscribes itself (so later events no longer affect the promise);
a stream error rejects the promise; the observer has no complete handler, so
completion without any chunk leaves the promise pending. -/
def wrapWithCustomPromise {D : Type} : List (StreamEvent D) → PromiseState D
  | [] => PromiseState.pending
  | StreamEvent.next v :: _ => PromiseState.resolved v
  | StreamEvent.fail e :: _ => PromiseState.rejected e
  | StreamEvent.complete :: _ => PromiseState.pending

/-- Modelled from the spec: the delivery stream's own single-settlement
promise (Concast.promise from utilities, a collaborator not included in the
sources): it resolves only after the last chunk, with the latest chunk value,
and rejects on a stream error. -/
def concastPromise {D : Type} : List (StreamEvent D) → Option D → PromiseState D
  | [], _ => PromiseState.pending
  | StreamEvent.next v :: rest, _ => concastPromise rest (some v)
  | StreamEvent.fail e :: _, _ => PromiseState.rejected e
  | StreamEvent.complete :: _, some v => PromiseState.resolved v
  | StreamEvent.complete :: _, none => PromiseState.pending

/-- The constructor's choice of public promise: a query document carrying a
defer directive gets the first-chunk promise via wrapWithCustomPromise,
otherwise the delivery stream's own promise is adopted directly. -/
def constructPromise {D : Type} (hasDeferDirective : Bool)
    (concastEvents : List (StreamEvent D)) : PromiseState D :=
  if hasDeferDirective then wrapWithCustomPromise concastEvents
  else concastPromise concastEvents none

/-- A heap of result objects addressed by reference, used to observe the
in-place mutation performed by handleNext's backfill. -/
abbrev Heap (D : Type) := Nat → ApolloQueryResult D

/-- Coordinator state under the heap model: the current result is held by
reference into the heap, alongside the listener set. -/
structure RefState where
  resultRef : Nat
  listeners : List Nat
deriving DecidableEq, Repr

/-- handleNext under the heap model, mirroring the source statement by
statement: the stale-data backfill assigns through the incoming reference
(mutating the engine's object in place, not a copy); the structural-equality
check and the stored current result then see the mutated object, and each
listener receives that same reference. -/
def handleNextRef {D : Type} [DecidableEq D] (heap : Heap D) (s : RefState)
    (r : Nat) : Heap D × RefState × List (Nat × Nat) :=
  let heap' :=
    if isNetworkRequestSettled (heap r).networkStatus ∧
        (heap s.resultRef).data.isSome ∧ (heap r).data = none then
      Function.update heap r { heap r with data := (heap s.resultRef).data }
    else heap
  if heap' s.resultRef = heap' r then (heap', s, [])
  else (heap', { s with resultRef := r }, s.listeners.map (fun l => (l, r)))

/-! Sample values used by the concrete witnesses. -/

/-- A ready snapshot holding data. -/
def rReady : ApolloQueryResult Nat :=
  { data := some 1, error := none, networkStatus := NetworkStatus.ready,
    loading := false }

/-- A loading snapshot holding data. -/
def rLoading : ApolloQueryResult Nat :=
  { data := some 5, error := none, networkStatus := NetworkStatus.loading,
    loading := true }

/-- A sample engine error. -/
def errE : ApolloError := { message := "boom" }

/-- A settled error snapshot with absent data. -/
def rErrorNoData : ApolloQueryResult Nat :=
  { data := none, error := some errE, networkStatus := NetworkStatus.error,
    loading := false }

/-- A coordinator holding the ready snapshot, one listener registered. -/
def sReady : QuerySubscription Nat :=
  { result := rReady, promise := 0, listeners := [7], subscribed := true,
    disposeHookCalls := 0 }

/-- A coordinator holding the loading snapshot, one listener registered. -/
def sLoading : QuerySubscription Nat :=
  { result := rLoading, promise := 0, listeners := [3], subscribed := true,
    disposeHookCalls := 0 }

/-- C1: handleNext discards an incoming result that is, after the possible
stale-error backfill, structurally equal to the stored current result — the
state is unchanged and no listener is invoked; otherwise it replaces the
current result with the backfilled result and invokes every registered
listener exactly once with it. -/
theorem handleNext_dedups_and_fans_out {D : Type} [DecidableEq D]
    (s : QuerySubscription D) (result : ApolloQueryResult D)
    (hnd : s.listeners.Nodup) :
    (s.result = backfillData s result → handleNext s result = (s, [])) ∧
    (s.result ≠ backfillData s result →
      (handleNext s result).1 = { s with result := backfillData s result } ∧
      (handleNext s result).2 =
        s.listeners.map (fun l => (l, backfillData s result)) ∧
      (handleNext s result).2.Nodup ∧
      ∀ l ∈ s.listeners, (l, backfillData s result) ∈ (handleNext s result).2) := by
  constructor
  · intro h
    simp [handleNext, h]
  · intro h
    have hmap : (handleNext s result).2 =
        s.listeners.map (fun l => (l, backfillData s result)) := by
      simp [handleNext, deliver, h]
    have hinj : Function.Injective
        (fun l : Nat => (l, backfillData s result)) := by
      intro a b hab
      simpa using congrArg Prod.fst hab
    refine ⟨by simp [handleNext, h], hmap, ?_, ?_⟩
    · rw [hmap]
      exact hnd.map hinj
    · intro l hl
      rw [hmap]
      exact List.mem_map_of_mem _ hl

/-- C1 witness: the dedup and fan-out behavior evaluated on a concrete
coordinator; an equal redelivery of the held snapshot is discarded, while the
distinct settled error snapshot (backfilled to keep the held data) is stored
and delivered exactly once to the registered listener. -/
theorem handleNext_dedups_and_fans_out_witness :
    sReady.listeners.Nodup ∧
    ((sReady.result = backfillData sReady rReady →
        handleNext sReady rReady = (sReady, [])) ∧
      (sReady.result ≠ backfillData sReady rReady →
        (handleNext sReady rReady).1 =
          { sReady with result := backfillData sReady rReady } ∧
        (handleNext sReady rReady).2 =
          sReady.listeners.map (fun l => (l, backfillData sReady rReady)) ∧
        (handleNext sReady rReady).2.Nodup ∧
        ∀ l ∈ sReady.listeners,
          (l, backfillData sReady rReady) ∈ (handleNext sReady rReady).2)) ∧
    ((sReady.result = backfillData sReady rErrorNoData →
        handleNext sReady rErrorNoData = (sReady, [])) ∧
      (sReady.result ≠ backfillData sReady rErrorNoData →
        (handleNext sReady rErrorNoData).1 =
          { sReady with result := backfillData sReady rErrorNoData } ∧
        (handleNext sReady rErrorNoData).2 =
          sReady.listeners.map (fun l => (l, backfillData sReady rErrorNoData)) ∧
        (handleNext sReady rErrorNoData).2.Nodup ∧
        ∀ l ∈ sReady.listeners,
          (l, backfillData sReady rErrorNoData) ∈
            (handleNext sReady rErrorNoData).2)) :=
  ⟨by decide, handleNext_dedups_and_fans_out sReady rReady (by decide),
    handleNext_dedups_and_fans_out sReady rErrorNoData (by decide)⟩

/-- C2: when the incoming result's status is settled, the held result has
data and the incoming result's data is absent, handleNext proceeds — for the
deduplication check and any fan-out — with the incoming result whose data has
been backfilled from the held result. -/
theorem handleNext_stale_error_backfill {D : Type} [DecidableEq D]
    (s : QuerySubscription D) (result : ApolloQueryResult D)
    (h1 : isNetworkRequestSettled result.networkStatus = true)
    (h2 : s.result.data.isSome = true)
    (h3 : result.data = none) :
    handleNext s result =
      (if s.result = { result with data := s.result.data } then (s, [])
       else ({ s with result := { result with data := s.result.data } },
         s.listeners.map (fun l => (l, { result with data := s.result.data })))) := by
  have hb : backfillData s result = { result with data := s.result.data } := by
    simp [backfillData, h1, h2, h3]
  simp only [handleNext, deliver, hb]

/-- C2 witness: the spec's example — current result carries data and a
loading status; a settled incoming error result with absent data is delivered
to the listener with the previous data and the error status. -/
theorem handleNext_stale_error_backfill_witness :
    isNetworkRequestSettled rErrorNoData.networkStatus = true ∧
    sLoading.result.data.isSome = true ∧
    rErrorNoData.data = none ∧
    (handleNext sLoading rErrorNoData =
      (if sLoading.result = { rErrorNoData with data := sLoading.result.data }
       then (sLoading, [])
       else ({ sLoading with
                result := { rErrorNoData with data := sLoading.result.data } },
         sLoading.listeners.map
           (fun l => (l, { rErrorNoData with data := sLoading.result.data }))))) ∧
    (handleNext sLoading rErrorNoData).2 =
      [(3, { data := some 5, error := some errE,
             networkStatus := NetworkStatus.error, loading := false })] :=
  ⟨by decide, by decide, by decide,
    handleNext_stale_error_backfill sLoading rErrorNoData (by decide) (by decide)
      (by decide),
    by decide⟩

/-- C3: handleError always replaces the current result with the synthesized
error result and always fans out to every registered listener — there is no
structural-equality deduplication on the error path, so this holds even when
the synthesized result equals the stored one. -/
theorem handleError_always_delivers {D : Type} (s : QuerySubscription D)
    (e : ApolloError) :
    handleError s e =
      ({ s with result := { s.result with
          error := some e, networkStatus := NetworkStatus.error } },
       s.listeners.map (fun l =>
         (l, { s.result with
                error := some e, networkStatus := NetworkStatus.error }))) := by
  rfl

/-- C4: the result synthesized by handleError is a shallow copy of the
previous current result: its error field is the given error, its network
status is the error status, every other field (data, loading) is unchanged,
and this very result is both stored and fanned out. -/
theorem handleError_shallow_copy {D : Type} (s : QuerySubscription D)
    (e : ApolloError) :
    (handleError s e).1.result.error = some e ∧
    (handleError s e).1.result.networkStatus = NetworkStatus.error ∧
    (handleError s e).1.result.data = s.result.data ∧
    (handleError s e).1.result.loading = s.result.loading ∧
    (handleError s e).1.promise = s.promise ∧
    (handleError s e).1.listeners = s.listeners ∧
    (handleError s e).2 =
      s.listeners.map (fun l => (l, (handleError s e).1.result)) :=
  ⟨rfl, rfl, rfl, rfl, rfl, rfl, rfl⟩

/-- C5: for a query with a defer directive the public promise is built from
the one-shot observer — it resolves with the first chunk whatever events
follow (the observer has unsubscribed), and rejects when the stream errors
before any chunk; for a query without the directive the delivery stream's own
single-settlement promise is adopted directly. -/
theorem promise_construction {D : Type} (v : D) (e : ApolloError)
    (rest : List (StreamEvent D)) (events : List (StreamEvent D)) :
    constructPromise true (StreamEvent.next v :: rest) = PromiseState.resolved v ∧
    constructPromise true (StreamEvent.fail e :: rest) = PromiseState.rejected e ∧
    constructPromise false events = concastPromise events none :=
  ⟨rfl, rfl, rfl⟩

/-- C6: refetch and fetchMore delegate to the engine operation, replace the
promise field with the promise the engine returns, hand back that very
promise, and touch no other coordinator state. -/
theorem refetch_fetchMore_promise_swap {D : Type} (refetchOp : Option Nat → Nat)
    (fetchMoreOp : Nat → Nat) (s : QuerySubscription D) (vars : Option Nat)
    (options : Nat) :
    refetch refetchOp s vars =
      ({ s with promise := refetchOp vars }, refetchOp vars) ∧
    (refetch refetchOp s vars).2 = (refetch refetchOp s vars).1.promise ∧
    (refetch refetchOp s vars).1.result = s.result ∧
    (refetch refetchOp s vars).1.listeners = s.listeners ∧
    (refetch refetchOp s vars).1.subscribed = s.subscribed ∧
    (refetch refetchOp s vars).1.disposeHookCalls = s.disposeHookCalls ∧
    fetchMore fetchMoreOp s options =
      ({ s with promise := fetchMoreOp options }, fetchMoreOp options) ∧
    (fetchMore fetchMoreOp s options).2 =
      (fetchMore fetchMoreOp s options).1.promise ∧
    (fetchMore fetchMoreOp s options).1.result = s.result ∧
    (fetchMore fetchMoreOp s options).1.listeners = s.listeners ∧
    (fetchMore fetchMoreOp s options).1.subscribed = s.subscribed ∧
    (fetchMore fetchMoreOp s options).1.disposeHookCalls = s.disposeHookCalls :=
  ⟨rfl, rfl, rfl, rfl, rfl, rfl, rfl, rfl, rfl, rfl, rfl, rfl⟩

/-- A coordinator with two registered listeners, used by the C7 witness. -/
def sTwo : QuerySubscription Nat :=
  { result := rReady, promise := 0, listeners := [3, 7], subscribed := true,
    disposeHookCalls := 0 }

/-- C7: listen registers the callback identity-based, keeping it in the set
at most once; the returned unregistration removes exactly that callback, so a
subsequent delivery does not invoke it but still invokes every other
registered listener; unregistering twice is a safe no-op that changes nothing
further. -/
theorem listen_lifecycle {D : Type} (s : QuerySubscription D) (cb : Nat)
    (hnd : s.listeners.Nodup) :
    cb ∈ (listen s cb).listeners ∧
    (listen s cb).listeners.Nodup ∧
    (∀ x, x ∈ (unlisten s cb).listeners ↔ x ∈ s.listeners ∧ x ≠ cb) ∧
    unlisten (unlisten s cb) cb = unlisten s cb ∧
    (∀ result : ApolloQueryResult D,
      (cb, result) ∉ deliver (unlisten s cb) result) ∧
    (∀ result : ApolloQueryResult D, ∀ x ∈ s.listeners, x ≠ cb →
      (x, result) ∈ deliver (unlisten s cb) result) := by
  refine ⟨?_, ?_, ?_, ?_, ?_, ?_⟩
  · unfold listen addListener
    split
    · assumption
    · simp
  · unfold listen addListener
    split
    · exact hnd
    · rename_i hmem
      exact List.Nodup.append hnd (by simp) (by simpa using hmem)
  · intro x
    simp [unlisten, deleteListener, List.mem_filter]
  · simp [unlisten, deleteListener, List.filter_filter]
  · intro result
    simp [deliver, unlisten, deleteListener, List.mem_filter]
  · intro result x hx hne
    refine List.mem_map_of_mem _ ?_
    simp [unlisten, deleteListener, List.mem_filter, hx, hne]

/-- C7 witness: the listener lifecycle evaluated on a coordinator with two
registered listeners, unregistering one of them. -/
theorem listen_lifecycle_witness :
    sTwo.listeners.Nodup ∧
    (7 ∈ (listen sTwo 7).listeners ∧
      (listen sTwo 7).listeners.Nodup ∧
      (∀ x, x ∈ (unlisten sTwo 7).listeners ↔ x ∈ sTwo.listeners ∧ x ≠ 7) ∧
      unlisten (unlisten sTwo 7) 7 = unlisten sTwo 7 ∧
      (∀ result : ApolloQueryResult Nat,
        (7, result) ∉ deliver (unlisten sTwo 7) result) ∧
      (∀ result : ApolloQueryResult Nat, ∀ x ∈ sTwo.listeners, x ≠ 7 →
        (x, result) ∈ deliver (unlisten sTwo 7) result)) :=
  ⟨by decide, listen_lifecycle sTwo 7 (by decide)⟩

/-- C8 counterexample: dispose has no guard against repeated calls, so a
second dispose invokes the onDispose hook a second time — the hook is not
invoked exactly once over the coordinator's lifetime when dispose is called
twice. -/
theorem dispose_twice_invokes_hook_twice :
    sReady.disposeHookCalls = 0 ∧
    (dispose (dispose sReady)).disposeHookCalls = 2 ∧
    ¬ (dispose (dispose sReady)).disposeHookCalls = 1 := by
  exact ⟨rfl, rfl, by decide⟩

/-- C8 amended: dispose releases the engine subscription and invokes the
onDispose hook once per call — a single dispose invokes it exactly once; an
erroneous second dispose does not corrupt the rest of the state (result,
listeners and promise are untouched and the engine-level unsubscribe is a
no-op) but it does invoke the hook a second time. -/
theorem dispose_behavior {D : Type} (s : QuerySubscription D) :
    (dispose s).subscribed = false ∧
    (dispose s).disposeHookCalls = s.disposeHookCalls + 1 ∧
    (dispose s).result = s.result ∧
    (dispose s).listeners = s.listeners ∧
    (dispose s).promise = s.promise ∧
    (dispose (dispose s)).subscribed = false ∧
    (dispose (dispose s)).result = s.result ∧
    (dispose (dispose s)).listeners = s.listeners ∧
    (dispose (dispose s)).promise = s.promise ∧
    (dispose (dispose s)).disposeHookCalls = s.disposeHookCalls + 2 :=
  ⟨rfl, rfl, rfl, rfl, rfl, rfl, rfl, rfl, rfl, rfl⟩

/-- A coordinator whose subscription has been severed processes any engine
event sequence without effect: neither handler runs. -/
theorem engineDeliverTrace_severed {D : Type} [DecidableEq D]
    (s : QuerySubscription D) (h : s.subscribed = false) :
    ∀ evs : List (EngineEvent D), engineDeliverTrace s evs = (s, []) := by
  intro evs
  induction evs with
  | nil => rfl
  | cons ev evs ih => simp [engineDeliverTrace, engineDeliver, h, ih]

/-- C9: after dispose, the subscription is severed, so no sequence of raw
engine events produces any listener invocation or state change; dispose
itself leaves the listener set in place (it is not implicitly cleared). -/
theorem disposal_halts_delivery {D : Type} [DecidableEq D]
    (s : QuerySubscription D) (evs : List (EngineEvent D)) :
    engineDeliverTrace (dispose s) evs = (dispose s, []) ∧
    (dispose s).listeners = s.listeners :=
  ⟨engineDeliverTrace_severed (dispose s) rfl evs, rfl⟩

/-- C10: under the backfill condition (settled incoming status, held data
present, incoming data absent) handleNext writes the held data through the
incoming object's reference — the engine's object is mutated in place and no
other heap cell is touched — and when the mutated object still differs from
the held one, that same reference becomes the current result and is what
every listener receives. -/
theorem backfill_mutates_in_place {D : Type} [DecidableEq D] (heap : Heap D)
    (s : RefState) (r : Nat)
    (h1 : isNetworkRequestSettled (heap r).networkStatus = true)
    (h2 : (heap s.resultRef).data.isSome = true)
    (h3 : (heap r).data = none)
    (hfresh : r ≠ s.resultRef) :
    (handleNextRef heap s r).1 r =
      { heap r with data := (heap s.resultRef).data } ∧
    (∀ q, q ≠ r → (handleNextRef heap s r).1 q = heap q) ∧
    ({ heap r with data := (heap s.resultRef).data } ≠ heap s.resultRef →
      (handleNextRef heap s r).2.1.resultRef = r ∧
      (handleNextRef heap s r).2.2 = s.listeners.map (fun l => (l, r))) := by
  have hcond : (isNetworkRequestSettled (heap r).networkStatus = true) ∧
      ((heap s.resultRef).data.isSome = true) ∧ (heap r).data = none :=
    ⟨h1, h2, h3⟩
  have hupd : (if isNetworkRequestSettled (heap r).networkStatus ∧
        (heap s.resultRef).data.isSome ∧ (heap r).data = none then
        Function.update heap r { heap r with data := (heap s.resultRef).data }
      else heap) =
      Function.update heap r { heap r with data := (heap s.resultRef).data } :=
    if_pos hcond
  have key : handleNextRef heap s r =
      if Function.update heap r { heap r with data := (heap s.resultRef).data }
            s.resultRef =
          Function.update heap r { heap r with data := (heap s.resultRef).data } r
      then (Function.update heap r { heap r with data := (heap s.resultRef).data },
            s, [])
      else (Function.update heap r { heap r with data := (heap s.resultRef).data },
            { s with resultRef := r }, s.listeners.map (fun l => (l, r))) := by
    simp only [handleNextRef]
    rw [hupd]
  refine ⟨?_, ?_, ?_⟩
  · rw [key]
    split <;> simp [Function.update_same]
  · intro q hq
    rw [key]
    split <;> simp [Function.update_noteq hq]
  · intro hneq
    have hcne : Function.update heap r
          { heap r with data := (heap s.resultRef).data } s.resultRef ≠
        Function.update heap r
          { heap r with data := (heap s.resultRef).data } r := by
      rw [Function.update_same, Function.update_noteq (Ne.symm hfresh)]
      exact fun hc => hneq hc.symm
    rw [key, if_neg hcne]
    exact ⟨rfl, rfl⟩

/-- A concrete heap: reference 0 holds the loading snapshot with data,
every other reference holds the settled error snapshot with absent data. -/
def heapA : Heap Nat := fun n => if n = 0 then rLoading else rErrorNoData

/-- A concrete ref-model coordinator: current result at reference 0, one
registered listener. -/
def refStateA : RefState := { resultRef := 0, listeners := [3] }

/-- C10 witness: the in-place mutation evaluated on a concrete heap — the
incoming object at reference 1 is mutated to carry the held data, reference 0
is untouched, and the delivery stores and passes reference 1. -/
theorem backfill_mutates_in_place_witness :
    isNetworkRequestSettled (heapA 1).networkStatus = true ∧
    (heapA refStateA.resultRef).data.isSome = true ∧
    (heapA 1).data = none ∧
    (1 : Nat) ≠ refStateA.resultRef ∧
    ((handleNextRef heapA refStateA 1).1 1 =
        { heapA 1 with data := (heapA refStateA.resultRef).data } ∧
      (∀ q, q ≠ 1 → (handleNextRef heapA refStateA 1).1 q = heapA q) ∧
      ({ heapA 1 with data := (heapA refStateA.resultRef).data } ≠
          heapA refStateA.resultRef →
        (handleNextRef heapA refStateA 1).2.1.resultRef = 1 ∧
        (handleNextRef heapA refStateA 1).2.2 =
          refStateA.listeners.map (fun l => (l, 1)))) :=
  ⟨by decide, by decide, by decide, by decide,
    backfill_mutates_in_place heapA refStateA 1 (by decide) (by decide)
      (by decide) (by decide)⟩

end ApolloClient
